import Mathlib

/-!
Verification of the istio-mcp-server tool-registry and dispatch core.

This file shallowly embeds the Go sources of the repository:
  * `pkg/mcp/mcp.go` — result envelope (`NewTextResult`), server construction,
    client reload (`reloadIstioClient`) and the kubeconfig watch lifecycle;
  * `pkg/mcp/profile.go` — the fixed tool catalog (`FullProfile.GetTools`) and
    the per-tool handler functions;
  * `pkg/istio/istio.go` — the resource-listing backend methods
    (`GetVirtualServices`, `CheckExternalDependencyAvailability`,
    `GetPodsByService`, …) and `WatchKubeConfig`;
  * `pkg/istio/proxy_config.go` — the istioctl subprocess client.

External collaborators (the Kubernetes/Istio API servers and the istioctl
binary) are modelled as oracles: functions from the request data to the
response the collaborator returns.  A Go `(T, error)` return is modelled as
`T × Option String` (`none` = nil error, `some msg` = an error whose
`Error()` is `msg`); a fallible client-go call is an oracle returning
`Except String T`.  Go maps that the code iterates are carried as
association lists in the order the Go runtime happens to present them
(Go map iteration order is unspecified); Go maps that are only printed with
`%v` are carried in `fmt`'s sorted key order.  Real time (the 30s istioctl
timeout) and goroutine interleavings are outside the embedding.
-/

namespace IstioMCP

/-- A Go error value: `none` is a nil error, `some msg` an error with message `msg`. -/
abbrev GoError := Option String

/-- mcp.TextContent: a content item of a tool result (`Type` is always "text"). -/
structure TextContent where
  type : String
  text : String
deriving Repr, DecidableEq

/-- mcp.CallToolResult: the result envelope handed back to the transport. -/
structure CallToolResult where
  isError : Bool := false
  content : List TextContent
deriving Repr, DecidableEq

/-- NewTextResult from pkg/mcp/mcp.go: wraps a handler's `(content, err)` pair
into a result envelope.  A non-nil error produces an error envelope whose sole
content item is the error's message; otherwise the content string becomes the
sole content item of a success envelope. -/
def NewTextResult (content : String) (err : GoError) : CallToolResult :=
  match err with
  | some e => { isError := true, content := [{ type := "text", text := e }] }
  | none => { isError := false, content := [{ type := "text", text := content }] }

/-! ## istioctl proxy-config client (pkg/istio/proxy_config.go) -/

/-- ProxyConfigClient from pkg/istio/proxy_config.go.  The istioctl subprocess
is the oracle `run`: given the full argv (after the binary name) it returns the
combined output and the error of the run.  The Go struct's 30-second timeout
is real time and is not part of the embedding. -/
structure ProxyConfigClient where
  kubeconfig : String
  run : List String → String × GoError

/-- execIstioctl: prepends `--kubeconfig <path>` when a kubeconfig is set, runs
istioctl, and on failure wraps the error together with the combined output. -/
def ProxyConfigClient.execIstioctl (p : ProxyConfigClient) (args : List String) :
    String × GoError :=
  let cmdArgs := (if p.kubeconfig ≠ "" then ["--kubeconfig", p.kubeconfig] else []) ++ args
  match p.run cmdArgs with
  | (output, some e) => ("", some ("istioctl command failed: " ++ e ++ ", output: " ++ output))
  | (output, none) => (output, none)

/-- GetClusters: `istioctl proxy-config cluster <pod>.<namespace> -o json`. -/
def ProxyConfigClient.GetClusters (p : ProxyConfigClient) (ns podName : String) :
    String × GoError :=
  p.execIstioctl ["proxy-config", "cluster", podName ++ "." ++ ns, "-o", "json"]

/-- GetListeners: `istioctl proxy-config listener <pod>.<namespace> -o json`. -/
def ProxyConfigClient.GetListeners (p : ProxyConfigClient) (ns podName : String) :
    String × GoError :=
  p.execIstioctl ["proxy-config", "listener", podName ++ "." ++ ns, "-o", "json"]

/-- GetRoutes: `istioctl proxy-config route <pod>.<namespace> -o json`. -/
def ProxyConfigClient.GetRoutes (p : ProxyConfigClient) (ns podName : String) :
    String × GoError :=
  p.execIstioctl ["proxy-config", "route", podName ++ "." ++ ns, "-o", "json"]

/-- GetEndpoints: `istioctl proxy-config endpoint <pod>.<namespace> -o json`. -/
def ProxyConfigClient.GetEndpoints (p : ProxyConfigClient) (ns podName : String) :
    String × GoError :=
  p.execIstioctl ["proxy-config", "endpoint", podName ++ "." ++ ns, "-o", "json"]

/-- GetBootstrap: `istioctl proxy-config bootstrap <pod>.<namespace> -o json`. -/
def ProxyConfigClient.GetBootstrap (p : ProxyConfigClient) (ns podName : String) :
    String × GoError :=
  p.execIstioctl ["proxy-config", "bootstrap", podName ++ "." ++ ns, "-o", "json"]

/-- GetSecret: `istioctl proxy-config secret <pod>.<namespace> -o json`. -/
def ProxyConfigClient.GetSecret (p : ProxyConfigClient) (ns podName : String) :
    String × GoError :=
  p.execIstioctl ["proxy-config", "secret", podName ++ "." ++ ns, "-o", "json"]

/-- GetConfigDump: `istioctl proxy-config all <pod>.<namespace> -o json`. -/
def ProxyConfigClient.GetConfigDump (p : ProxyConfigClient) (ns podName : String) :
    String × GoError :=
  p.execIstioctl ["proxy-config", "all", podName ++ "." ++ ns, "-o", "json"]

/-- GetProxyStatus: `istioctl proxy-status` — the cluster-wide invocation shape. -/
def ProxyConfigClient.GetProxyStatus (p : ProxyConfigClient) : String × GoError :=
  p.execIstioctl ["proxy-status"]

/-- GetProxyStatusForPod: `istioctl proxy-status <pod>.<namespace>` — the
per-pod invocation shape. -/
def ProxyConfigClient.GetProxyStatusForPod (p : ProxyConfigClient) (ns podName : String) :
    String × GoError :=
  p.execIstioctl ["proxy-status", podName ++ "." ++ ns]

/-- GetAnalyze: `istioctl analyze [-n <namespace>]`. -/
def ProxyConfigClient.GetAnalyze (p : ProxyConfigClient) (ns : String) : String × GoError :=
  if ns ≠ "" then p.execIstioctl ["analyze", "-n", ns]
  else p.execIstioctl ["analyze"]

/-! ## Resource records and backend oracles (pkg/istio/istio.go)

Each record carries exactly the fields the Go formatting code reads.  `Option`
models a nil slice/map/pointer.  Go route slices are carried as their lengths
since only `len(...)` is read. -/

/-- A VirtualService as read by `GetVirtualServices`. -/
structure VirtualService where
  name : String
  hosts : Option (List String)
  gateways : Option (List String)
  httpRouteCount : Nat
  tcpRouteCount : Nat
  tlsRouteCount : Nat
deriving Repr, DecidableEq

/-- A DestinationRule as read by `GetDestinationRules`. -/
structure DestinationRule where
  name : String
  host : String
deriving Repr, DecidableEq

/-- A Gateway as read by `GetGateways`; the selector map is carried in fmt's
sorted key order (it is only printed with `%v`). -/
structure Gateway where
  name : String
  selector : Option (List (String × String))
deriving Repr, DecidableEq

/-- A ServiceEntry as read by `GetServiceEntries` and the dependency check;
`location` is `Spec.Location.String()`. -/
structure ServiceEntry where
  name : String
  hosts : Option (List String)
  location : String
deriving Repr, DecidableEq

/-- An AuthorizationPolicy; `matchLabels` is `Spec.Selector.MatchLabels`
(none when the selector or its labels are nil), `action` is
`Spec.Action.String()`. -/
structure AuthorizationPolicy where
  name : String
  matchLabels : Option (List (String × String))
  action : String
deriving Repr, DecidableEq

/-- A PeerAuthentication; `mtlsMode` is `Spec.Mtls.Mode.String()` when the
mTLS pointer is non-nil. -/
structure PeerAuthentication where
  name : String
  matchLabels : Option (List (String × String))
  mtlsMode : Option String
deriving Repr, DecidableEq

/-- An EnvoyFilter; `workloadLabels` is `Spec.WorkloadSelector.Labels`. -/
structure EnvoyFilter where
  name : String
  workloadLabels : Option (List (String × String))
deriving Repr, DecidableEq

/-- A Telemetry configuration; `matchLabels` is `Spec.Selector.MatchLabels`. -/
structure Telemetry where
  name : String
  matchLabels : Option (List (String × String))
deriving Repr, DecidableEq

/-- The Istio clientset (client-go `versioned.Interface`), as listing oracles:
for a namespace, each returns the item collection or the API error. -/
structure IstioClient where
  listVirtualServices : String → Except String (List VirtualService)
  listDestinationRules : String → Except String (List DestinationRule)
  listGateways : String → Except String (List Gateway)
  listServiceEntries : String → Except String (List ServiceEntry)
  listAuthorizationPolicies : String → Except String (List AuthorizationPolicy)
  listPeerAuthentications : String → Except String (List PeerAuthentication)
  listEnvoyFilters : String → Except String (List EnvoyFilter)
  listTelemetries : String → Except String (List Telemetry)

/-- A Kubernetes core/v1 Service as read by `GetServices` and
`GetPodsByService`.  `lbIngress` carries `Status.LoadBalancer.Ingress` as
(IP, Hostname) pairs.  `selector` is carried in the order the Go runtime's
map iteration presents it (`GetPodsByService` iterates this map, and Go map
iteration order is unspecified and varies between invocations). -/
structure KubeService where
  name : String
  type : String
  clusterIP : String
  lbIngress : List (String × String)
  selector : Option (List (String × String))
deriving Repr, DecidableEq

/-- A pod condition (`Type`, `Status`). -/
structure PodCondition where
  type : String
  status : String
deriving Repr, DecidableEq

/-- A Kubernetes pod as read by the pod-discovery code; `containers` carries
the container names of `Spec.Containers`. -/
structure KubePod where
  name : String
  podNamespace : String
  phase : String
  podIP : String
  nodeName : String
  containers : List String
  conditions : List PodCondition
deriving Repr, DecidableEq

/-- An endpoint address target reference. -/
structure EndpointTargetRef where
  kind : String
  name : String
deriving Repr, DecidableEq

/-- An endpoint address. -/
structure EndpointAddress where
  ip : String
  targetRef : Option EndpointTargetRef
deriving Repr, DecidableEq

/-- An endpoint subset. -/
structure EndpointSubset where
  addresses : List EndpointAddress
deriving Repr, DecidableEq

/-- A core/v1 Endpoints object. -/
structure Endpoints where
  subsets : List EndpointSubset
deriving Repr, DecidableEq

/-- The Kubernetes client (client-go `kubernetes.Interface`), as oracles.
`listPods` takes the namespace and the label-selector string;
`listAllRunningPods` is `Pods("").List` with field selector
`status.phase=Running`. -/
structure KubeClient where
  getService : String → String → Except String KubeService
  getEndpoints : String → String → Except String Endpoints
  listPods : String → String → Except String (List KubePod)
  listServices : String → Except String (List KubeService)
  listAllRunningPods : Except String (List KubePod)

/-- The Istio struct from pkg/istio/istio.go: the cluster-facing backend
handle all handlers close over. -/
structure Istio where
  istioClient : IstioClient
  kubeClient : KubeClient
  ProxyConfig : ProxyConfigClient

/-! ## Go formatting helpers -/

/-- Go `fmt` of a string slice with `%v`: `[a b c]`. -/
def formatStringList (xs : List String) : String :=
  "[" ++ String.intercalate " " xs ++ "]"

/-- Go `fmt` of a `map[string]string` with `%v`: `map[k1:v1 k2:v2]`
(fmt prints map keys sorted; the association list is carried in that order). -/
def formatStringMap (m : List (String × String)) : String :=
  "map[" ++ String.intercalate " " (m.map (fun kv => kv.1 ++ ":" ++ kv.2)) ++ "]"

/-- Go `fmt.Sprintf` `%-w s`: left-justify to width `w`. -/
def padRight (s : String) (w : Nat) : String :=
  s ++ String.mk (List.replicate (w - s.length) ' ')

/-- Go `fmt.Sprintf` `%w d`: right-justify to width `w`. -/
def padLeft (s : String) (w : Nat) : String :=
  String.mk (List.replicate (w - s.length) ' ') ++ s

/-! ## Resource-listing methods (pkg/istio/istio.go) -/

/-- The item lines `GetVirtualServices` appends for one VirtualService. -/
def vsItemLines (vs : VirtualService) : String :=
  "- " ++ vs.name ++ "\n"
    ++ (match vs.hosts with
        | some hs => "  Hosts: " ++ formatStringList hs ++ "\n"
        | none => "")
    ++ (match vs.gateways with
        | some gs => "  Gateways: " ++ formatStringList gs ++ "\n"
        | none => "")
    ++ (if vs.httpRouteCount > 0 then "  HTTP Routes: " ++ Nat.repr vs.httpRouteCount ++ "\n" else "")
    ++ (if vs.tcpRouteCount > 0 then "  TCP Routes: " ++ Nat.repr vs.tcpRouteCount ++ "\n" else "")
    ++ (if vs.tlsRouteCount > 0 then "  TLS Routes: " ++ Nat.repr vs.tlsRouteCount ++ "\n" else "")
    ++ "\n"

/-- GetVirtualServices: one listing call, then a count header and one block
per item, in backend order. -/
def Istio.GetVirtualServices (i : Istio) (ns : String) : String × GoError :=
  match i.istioClient.listVirtualServices ns with
  | .error e => ("", some ("failed to list virtual services: " ++ e))
  | .ok items =>
    let header := "Found " ++ Nat.repr items.length ++ " Virtual Services in namespace '"
      ++ ns ++ "':\n"
    (items.foldl (fun acc vs => acc ++ vsItemLines vs) header, none)

/-- The item lines `GetDestinationRules` appends for one DestinationRule. -/
def drItemLines (dr : DestinationRule) : String :=
  "- " ++ dr.name ++ "\n"
    ++ (if dr.host ≠ "" then "  Host: " ++ dr.host ++ "\n" else "")

/-- GetDestinationRules. -/
def Istio.GetDestinationRules (i : Istio) (ns : String) : String × GoError :=
  match i.istioClient.listDestinationRules ns with
  | .error e => ("", some ("failed to list destination rules: " ++ e))
  | .ok items =>
    let header := "Found " ++ Nat.repr items.length ++ " Destination Rules in namespace '"
      ++ ns ++ "':\n"
    (items.foldl (fun acc dr => acc ++ drItemLines dr) header, none)

/-- The item lines `GetGateways` appends for one Gateway. -/
def gwItemLines (gw : Gateway) : String :=
  "- " ++ gw.name ++ "\n"
    ++ (match gw.selector with
        | some sel => "  Selector: " ++ formatStringMap sel ++ "\n"
        | none => "")

/-- GetGateways. -/
def Istio.GetGateways (i : Istio) (ns : String) : String × GoError :=
  match i.istioClient.listGateways ns with
  | .error e => ("", some ("failed to list gateways: " ++ e))
  | .ok items =>
    let header := "Found " ++ Nat.repr items.length ++ " Gateways in namespace '" ++ ns ++ "':\n"
    (items.foldl (fun acc gw => acc ++ gwItemLines gw) header, none)

/-- The item lines `GetServiceEntries` appends for one ServiceEntry. -/
def seItemLines (se : ServiceEntry) : String :=
  "- " ++ se.name ++ "\n"
    ++ (match se.hosts with
        | some hs => "  Hosts: " ++ formatStringList hs ++ "\n"
        | none => "")
    ++ (if se.location ≠ "" then "  Location: " ++ se.location ++ "\n" else "")

/-- GetServiceEntries. -/
def Istio.GetServiceEntries (i : Istio) (ns : String) : String × GoError :=
  match i.istioClient.listServiceEntries ns with
  | .error e => ("", some ("failed to list service entries: " ++ e))
  | .ok items =>
    let header := "Found " ++ Nat.repr items.length ++ " Service Entries in namespace '"
      ++ ns ++ "':\n"
    (items.foldl (fun acc se => acc ++ seItemLines se) header, none)

/-- The item lines `GetAuthorizationPolicies` appends for one policy. -/
def apItemLines (ap : AuthorizationPolicy) : String :=
  "- " ++ ap.name ++ "\n"
    ++ (match ap.matchLabels with
        | some sel => "  Selector: " ++ formatStringMap sel ++ "\n"
        | none => "")
    ++ (if ap.action ≠ "" then "  Action: " ++ ap.action ++ "\n" else "")

/-- GetAuthorizationPolicies. -/
def Istio.GetAuthorizationPolicies (i : Istio) (ns : String) : String × GoError :=
  match i.istioClient.listAuthorizationPolicies ns with
  | .error e => ("", some ("failed to list authorization policies: " ++ e))
  | .ok items =>
    let header := "Found " ++ Nat.repr items.length ++ " Authorization Policies in namespace '"
      ++ ns ++ "':\n"
    (items.foldl (fun acc ap => acc ++ apItemLines ap) header, none)

/-- The item lines `GetPeerAuthentications` appends for one policy. -/
def paItemLines (pa : PeerAuthentication) : String :=
  "- " ++ pa.name ++ "\n"
    ++ (match pa.matchLabels with
        | some sel => "  Selector: " ++ formatStringMap sel ++ "\n"
        | none => "")
    ++ (match pa.mtlsMode with
        | some mode => "  mTLS Mode: " ++ mode ++ "\n"
        | none => "")

/-- GetPeerAuthentications. -/
def Istio.GetPeerAuthentications (i : Istio) (ns : String) : String × GoError :=
  match i.istioClient.listPeerAuthentications ns with
  | .error e => ("", some ("failed to list peer authentications: " ++ e))
  | .ok items =>
    let header := "Found " ++ Nat.repr items.length ++ " Peer Authentications in namespace '"
      ++ ns ++ "':\n"
    (items.foldl (fun acc pa => acc ++ paItemLines pa) header, none)

/-- The item lines `GetEnvoyFilters` appends for one filter. -/
def efItemLines (ef : EnvoyFilter) : String :=
  "- " ++ ef.name ++ "\n"
    ++ (match ef.workloadLabels with
        | some sel => "  Workload Selector: " ++ formatStringMap sel ++ "\n"
        | none => "")

/-- GetEnvoyFilters. -/
def Istio.GetEnvoyFilters (i : Istio) (ns : String) : String × GoError :=
  match i.istioClient.listEnvoyFilters ns with
  | .error e => ("", some ("failed to list envoy filters: " ++ e))
  | .ok items =>
    let header := "Found " ++ Nat.repr items.length ++ " Envoy Filters in namespace '"
      ++ ns ++ "':\n"
    (items.foldl (fun acc ef => acc ++ efItemLines ef) header, none)

/-- The item lines `GetTelemetries` appends for one Telemetry. -/
def telItemLines (tel : Telemetry) : String :=
  "- " ++ tel.name ++ "\n"
    ++ (match tel.matchLabels with
        | some sel => "  Selector: " ++ formatStringMap sel ++ "\n"
        | none => "")

/-- GetTelemetries. -/
def Istio.GetTelemetries (i : Istio) (ns : String) : String × GoError :=
  match i.istioClient.listTelemetries ns with
  | .error e => ("", some ("failed to list telemetries: " ++ e))
  | .ok items =>
    let header := "Found " ++ Nat.repr items.length ++ " Telemetry configurations in namespace '"
      ++ ns ++ "':\n"
    (items.foldl (fun acc tel => acc ++ telItemLines tel) header, none)

/-- GetIstioConfigSummary: eight best-effort listings; a failed listing is
logged and its line omitted, the operation still succeeds. -/
def Istio.GetIstioConfigSummary (i : Istio) (ns : String) : String × GoError :=
  let result := "Istio Configuration Summary for namespace '" ++ ns ++ "':\n\n"
  let result := match i.istioClient.listVirtualServices ns with
    | .error _ => result
    | .ok l => result ++ "Virtual Services: " ++ Nat.repr l.length ++ "\n"
  let result := match i.istioClient.listDestinationRules ns with
    | .error _ => result
    | .ok l => result ++ "Destination Rules: " ++ Nat.repr l.length ++ "\n"
  let result := match i.istioClient.listGateways ns with
    | .error _ => result
    | .ok l => result ++ "Gateways: " ++ Nat.repr l.length ++ "\n"
  let result := match i.istioClient.listServiceEntries ns with
    | .error _ => result
    | .ok l => result ++ "Service Entries: " ++ Nat.repr l.length ++ "\n"
  let result := match i.istioClient.listAuthorizationPolicies ns with
    | .error _ => result
    | .ok l => result ++ "Authorization Policies: " ++ Nat.repr l.length ++ "\n"
  let result := match i.istioClient.listPeerAuthentications ns with
    | .error _ => result
    | .ok l => result ++ "Peer Authentications: " ++ Nat.repr l.length ++ "\n"
  let result := match i.istioClient.listEnvoyFilters ns with
    | .error _ => result
    | .ok l => result ++ "Envoy Filters: " ++ Nat.repr l.length ++ "\n"
  let result := match i.istioClient.listTelemetries ns with
    | .error _ => result
    | .ok l => result ++ "Telemetry Configurations: " ++ Nat.repr l.length ++ "\n"
  (result, none)


/-! ## Service and pod discovery (pkg/istio/istio.go) -/

/-- isPodReady: the first condition of type "Ready" decides readiness. -/
def isPodReady (pod : KubePod) : Bool :=
  match pod.conditions.find? (fun c => c.type == "Ready") with
  | some c => c.status == "True"
  | none => false

/-- The external IP `GetServices` shows for a LoadBalancer service:
the first ingress's IP, else its hostname, else `<pending>`. -/
def lbExternalIP (s : KubeService) : String :=
  match s.lbIngress with
  | [] => "<pending>"
  | (ip, hostname) :: _ =>
    if ip ≠ "" then ip else if hostname ≠ "" then hostname else "<pending>"

/-- GetServices: one service listing, grouped by service type, plus a
next-step hint.  Empty namespaces are a success with a zero count. -/
def Istio.GetServices (i : Istio) (ns : String) : String × GoError :=
  match i.kubeClient.listServices ns with
  | .error e => ("", some ("failed to list services: " ++ e))
  | .ok services =>
    let result := "Services in namespace '" ++ ns ++ "':\n\n"
      ++ "Found " ++ Nat.repr services.length ++ " services:\n\n"
    if services.length = 0 then
      (result ++ "No services found in this namespace.\n", none)
    else
      let clusterIPServices := services.filterMap (fun s =>
        if s.type ≠ "NodePort" ∧ s.type ≠ "LoadBalancer" ∧ s.clusterIP ≠ "None" then
          some (padRight s.name 30 ++ " (ClusterIP: " ++ s.clusterIP ++ ")")
        else none)
      let nodePortServices := services.filterMap (fun s =>
        if s.type = "NodePort" then
          some (padRight s.name 30 ++ " (NodePort: " ++ s.clusterIP ++ ")")
        else none)
      let loadBalancerServices := services.filterMap (fun s =>
        if s.type = "LoadBalancer" then
          some (padRight s.name 30 ++ " (LoadBalancer: " ++ lbExternalIP s ++ ")")
        else none)
      let headlessServices := services.filterMap (fun s =>
        if s.type ≠ "NodePort" ∧ s.type ≠ "LoadBalancer" ∧ s.clusterIP = "None" then
          some (padRight s.name 30 ++ " (Headless)")
        else none)
      let result := if clusterIPServices.length > 0 then
          (clusterIPServices.foldl (fun acc svc => acc ++ "   " ++ svc ++ "\n")
            (result ++ " ClusterIP Services:\n")) ++ "\n"
        else result
      let result := if nodePortServices.length > 0 then
          (nodePortServices.foldl (fun acc svc => acc ++ "   " ++ svc ++ "\n")
            (result ++ " NodePort Services:\n")) ++ "\n"
        else result
      let result := if loadBalancerServices.length > 0 then
          (loadBalancerServices.foldl (fun acc svc => acc ++ "   " ++ svc ++ "\n")
            (result ++ " LoadBalancer Services:\n")) ++ "\n"
        else result
      let result := if headlessServices.length > 0 then
          (headlessServices.foldl (fun acc svc => acc ++ "   " ++ svc ++ "\n")
            (result ++ " Headless Services:\n")) ++ "\n"
        else result
      let result := result
        ++ "Next step: Use 'get-pods-by-service' to find pods backing any of these services\n"
        ++ "   Example: get-pods-by-service --namespace " ++ ns ++ " --service <service-name>\n"
      (result, none)

/-- The endpoint address line the selector-less branch of `GetPodsByService`
appends. -/
def endpointAddrLine (addr : EndpointAddress) : String :=
  match addr.targetRef with
  | some tr =>
    if tr.kind = "Pod" then "   - Pod: " ++ tr.name ++ " (IP: " ++ addr.ip ++ ")\n"
    else "   - IP: " ++ addr.ip ++ "\n"
  | none => "   - IP: " ++ addr.ip ++ "\n"

/-- The block `GetPodsByService` appends for one running pod. -/
def runningPodLines (pod : KubePod) : String :=
  let hasIstio := pod.containers.contains "istio-proxy"
  let readyIcon := if isPodReady pod then "âœ…" else "âŒ"
  let istioIcon := if hasIstio then "ðŸ•¸ï¸" else "ðŸ”—"
  let appContainers := pod.containers.filter (fun c => c != "istio-proxy")
  "   " ++ readyIcon ++ " " ++ istioIcon ++ " " ++ pod.name ++ "\n"
    ++ "      IP: " ++ padRight pod.podIP 15 ++ " Node: " ++ pod.nodeName ++ "\n"
    ++ "      Containers: " ++ String.intercalate ", " appContainers ++ "\n"
    ++ (if hasIstio then "      ðŸ•¸ï¸  Istio mesh: ENABLED\n" else "      âš ï¸  Istio mesh: NOT ENABLED\n")
    ++ "\n"

/-- GetPodsByService: fetches the service, builds the label selector by
iterating the service's selector map (in the order the Go runtime presents
it, carried by `KubeService.selector`), lists matching pods and formats
running and non-running pods. -/
def Istio.GetPodsByService (i : Istio) (ns serviceName : String) : String × GoError :=
  match i.kubeClient.getService ns serviceName with
  | .error e => ("", some ("failed to get service " ++ serviceName ++ ": " ++ e))
  | .ok service =>
    let result := "Pods backing service '" ++ serviceName ++ "' in namespace '" ++ ns ++ "':\n\n"
    match service.selector with
    | none =>
      let result := result
        ++ "  Service '" ++ serviceName ++ "' has no selector - this is likely:\n"
        ++ "   - A headless service with manual endpoints\n"
        ++ "   - An external service (ExternalName type)\n"
        ++ "   - A service with manually configured endpoints\n\n"
      let result := match i.kubeClient.getEndpoints ns serviceName with
        | .ok eps =>
          if eps.subsets.length > 0 then
            eps.subsets.foldl (fun acc subset =>
                subset.addresses.foldl (fun acc2 addr => acc2 ++ endpointAddrLine addr) acc)
              (result ++ " Configured endpoints:\n")
          else result
        | .error _ => result
      (result, none)
    | some sel =>
      let selectorParts := sel.map (fun kv => kv.1 ++ "=" ++ kv.2)
      let labelSelector := String.intercalate "," selectorParts
      match i.kubeClient.listPods ns labelSelector with
      | .error e => ("", some ("failed to list pods for service " ++ serviceName ++ ": " ++ e))
      | .ok pods =>
        let runningPods := pods.filter (fun p => p.phase == "Running")
        let nonRunningPods := pods.filter (fun p => p.phase != "Running")
        let result := result ++ " Service selector: " ++ labelSelector ++ "\n"
          ++ " Total pods found: " ++ Nat.repr pods.length ++ " (" ++ Nat.repr runningPods.length
          ++ " running, " ++ Nat.repr nonRunningPods.length ++ " not running)\n\n"
        let result := if runningPods.length > 0 then
            runningPods.foldl (fun acc pod => acc ++ runningPodLines pod)
              (result ++ " Running pods (" ++ Nat.repr runningPods.length
                ++ ") - Ready for proxy commands:\n")
          else result
        let result := if nonRunningPods.length > 0 then
            (nonRunningPods.foldl
              (fun acc pod => acc ++ "   âŒ " ++ pod.name ++ " (Status: " ++ pod.phase ++ ")\n")
              (result ++ "â³ Non-running pods (" ++ Nat.repr nonRunningPods.length ++ "):\n")) ++ "\n"
          else result
        if runningPods.length = 0 then
          (result ++ "âš ï¸  No running pods found backing this service!\n"
            ++ "ðŸ’¡ This could mean:\n"
            ++ "   - The deployment is scaled to 0 replicas\n"
            ++ "   - Pods are failing to start\n"
            ++ "   - Label selector mismatch between service and pods\n\n", none)
        else
          let result := result ++ "ðŸ’¡ Next steps - Use these pod names with proxy commands:\n"
          let result := match runningPods with
            | examplePod :: _ => result
              ++ "   get-proxy-status --namespace " ++ ns ++ " --pod " ++ examplePod.name ++ "\n"
              ++ "   get-proxy-clusters --namespace " ++ ns ++ " --pod " ++ examplePod.name ++ "\n"
              ++ "   get-proxy-listeners --namespace " ++ ns ++ " --pod " ++ examplePod.name ++ "\n"
              ++ "   get-proxy-routes --namespace " ++ ns ++ " --pod " ++ examplePod.name ++ "\n"
            | [] => result
          (result, none)

/-- Deduplicate, keeping first occurrences (the Go code accumulates counts in
a map; the map's key set is modelled by this list). -/
def dedupStrings (l : List String) : List String :=
  l.foldl (fun acc x => if acc.contains x then acc else acc ++ [x]) []

/-- Byte-wise lexicographic comparison of strings as Go's `<` on strings
(code-point order coincides with UTF-8 byte order). -/
def lexLt : List Char → List Char → Bool
  | [], [] => false
  | [], _ :: _ => true
  | _ :: _, [] => false
  | a :: as, b :: bs => if a < b then true else if b < a then false else lexLt as bs

/-- The sort.Slice comparator of `DiscoverNamespacesWithSidecars`: count
descending, then namespace name ascending.  It is total on distinct
namespaces, so the sorted order is deterministic. -/
def nsBefore (a b : String × Nat) : Bool :=
  if a.2 = b.2 then lexLt a.1.data b.1.data else decide (b.2 < a.2)

/-- Insertion into a sorted list (stable; used to model sort.Slice, whose
comparator here is total on the distinct keys). -/
def insertSorted {A : Type} (le : A → A → Bool) (x : A) : List A → List A
  | [] => [x]
  | y :: ys => if le x y then x :: y :: ys else y :: insertSorted le x ys

/-- Insertion sort by a comparator. -/
def sortBy {A : Type} (le : A → A → Bool) (l : List A) : List A :=
  l.foldr (insertSorted le) []

/-- The recommendation column for a 0-based rank. -/
def rankRecommendation (rank : Nat) : String :=
  if rank = 0 then "BEST - Most Istio-injected workloads"
  else if rank < 3 then "Good - High Istio adoption"
  else if rank < 5 then "Moderate - Some Istio usage"
  else "Low - Minimal Istio usage"

/-- DiscoverNamespacesWithSidecars: counts running pods with an istio-proxy
sidecar per namespace and renders a ranked table (count descending, name
ascending). -/
def Istio.DiscoverNamespacesWithSidecars (i : Istio) : String × GoError :=
  match i.kubeClient.listAllRunningPods with
  | .error e => ("", some ("failed to list running pods for Istio sidecar discovery: " ++ e))
  | .ok pods =>
    let sidecarPods := pods.filter (fun p =>
      p.phase == "Running" && !p.containers.isEmpty && p.containers.contains "istio-proxy")
    let nss := dedupStrings (sidecarPods.map (fun p => p.podNamespace))
    if nss.isEmpty then ("No namespaces with Istio sidecars found", none)
    else
      let namespaceCounts := sortBy nsBefore (nss.map (fun n =>
        (n, (sidecarPods.filter (fun p => p.podNamespace == n)).length)))
      let header := "Found " ++ Nat.repr namespaceCounts.length
        ++ " namespaces with Istio sidecars:\n\n"
        ++ "Rank | Namespace | Sidecar Count | Recommendation\n"
        ++ "-----|-----------|---------------|----------------\n"
      let rows := namespaceCounts.enum.foldl (fun acc rankNc =>
        acc ++ padLeft (Nat.repr (rankNc.1 + 1)) 4 ++ " | " ++ padRight rankNc.2.1 9 ++ " | "
          ++ padLeft (Nat.repr rankNc.2.2) 13 ++ " | " ++ rankRecommendation rankNc.1 ++ "\n") header
      (rows ++ "\nðŸ’¡ **Recommendation**: Start with the top-ranked namespace for Istio operations as it likely contains the most Istio configuration and traffic.", none)

/-! ## External dependency check (pkg/istio/istio.go) -/

/-- The first ServiceEntry whose hosts contain the external host (the Go code
breaks out of its nested loops at the first match). -/
def findServiceEntryByHost (items : List ServiceEntry) (externalHost : String) :
    Option ServiceEntry :=
  items.find? (fun se => (se.hosts.getD []).contains externalHost)

/-- CheckExternalDependencyAvailability: four mandatory namespace-scoped
listings (service entries, virtual services, destination rules, authorization
policies) whose failures abort the operation, plus one supplementary
istio-system service-entry listing that is performed only when the namespace
scan found no match and whose failure is ignored (`if err == nil` in the
source). -/
def Istio.CheckExternalDependencyAvailability (i : Istio)
    (serviceName externalHost ns : String) : String × GoError :=
  let result := "External Dependency Check for service '" ++ serviceName ++ "' -> '"
    ++ externalHost ++ "' in namespace '" ++ ns ++ "':\n\n"
  match i.istioClient.listServiceEntries ns with
  | .error e => ("", some ("failed to list service entries: " ++ e))
  | .ok seList =>
    let nsHit := findServiceEntryByHost seList externalHost
    let sysHit : Option ServiceEntry :=
      match nsHit with
      | some _ => none
      | none =>
        match i.istioClient.listServiceEntries "istio-system" with
        | .ok sysList => findServiceEntryByHost sysList externalHost
        | .error _ => none
    let serviceEntryFound := nsHit.isSome || sysHit.isSome
    let serviceEntryDetails :=
      match nsHit with
      | some se => "[OK] Service Entry: '" ++ se.name ++ "' found in namespace '" ++ ns ++ "'"
      | none =>
        match sysHit with
        | some se => "[OK] Service Entry: '" ++ se.name ++ "' found in namespace 'istio-system' (global)"
        | none => "[MISSING] Service Entry: Not found for external host"
    match i.istioClient.listVirtualServices ns with
    | .error e => ("", some ("failed to list virtual services: " ++ e))
    | .ok vsList =>
      let vsHit := vsList.find? (fun vs => (vs.hosts.getD []).contains externalHost)
      let virtualServiceFound := vsHit.isSome
      let virtualServiceDetails :=
        match vsHit with
        | some vs => "[OK] Virtual Service: '" ++ vs.name ++ "' found with routing rules"
        | none => "[WARNING] Virtual Service: No specific routing rules found (may use default routing)"
      match i.istioClient.listDestinationRules ns with
      | .error e => ("", some ("failed to list destination rules: " ++ e))
      | .ok drList =>
        let drHit := drList.find? (fun dr => dr.host == externalHost)
        let destinationRuleFound := drHit.isSome
        let destinationRuleDetails :=
          match drHit with
          | some dr => "[OK] Destination Rule: '" ++ dr.name ++ "' found with traffic policies"
          | none => "[WARNING] Destination Rule: No specific traffic policies found (may use default policies)"
        match i.istioClient.listAuthorizationPolicies ns with
        | .error e => ("", some ("failed to list authorization policies: " ++ e))
        | .ok apList =>
          let apHit := apList.find? (fun ap => ap.action == "ALLOW")
          let authorizationPolicyDetails :=
            match apHit with
            | some ap => "[OK] Authorization Policy: '" ++ ap.name ++ "' found (ALLOW action)"
            | none => "[WARNING] Authorization Policy: No explicit ALLOW policies found (may use default allow)"
          let result := result ++ serviceEntryDetails ++ "\n" ++ virtualServiceDetails ++ "\n"
            ++ destinationRuleDetails ++ "\n" ++ authorizationPolicyDetails ++ "\n\n"
          let result :=
            if serviceEntryFound then
              result ++ "[RESULT] External dependency '" ++ externalHost
                ++ "' is available for service '" ++ serviceName ++ "'\n"
                ++ "   The Service Entry exists, which means the external service is registered in the mesh.\n"
                ++ (if virtualServiceFound || destinationRuleFound then
                      "   Additional routing and traffic policies are configured.\n"
                    else "")
            else
              result ++ "[RESULT] External dependency '" ++ externalHost
                ++ "' is NOT available for service '" ++ serviceName ++ "'\n"
                ++ "   You need to create a Service Entry for '" ++ externalHost
                ++ "' before the service can access it.\n"
                ++ "   Consider creating it in namespace '" ++ ns ++ "' or globally in 'istio-system'.\n"
          (result, none)

/-! ## Tool handlers (pkg/mcp/profile.go)

A handler in the Go code is a method on the Server reading the live backend
handle `s.i`; here each handler takes the backend (`Istio`) and the caller's
argument map.  The argument map is string-keyed; an absent key is `none`
(Go: a nil lookup in `GetArguments()`). -/

/-- The caller-supplied argument map. -/
abbrev Args := String → Option String

/-- getVirtualServices handler: namespace defaults to "default" only when the
key is absent. -/
def getVirtualServices (i : Istio) (args : Args) : CallToolResult :=
  let ns := match args "namespace" with
    | some v => v
    | none => "default"
  let r := i.GetVirtualServices ns
  NewTextResult r.1 r.2

/-- getDestinationRules handler. -/
def getDestinationRules (i : Istio) (args : Args) : CallToolResult :=
  let ns := match args "namespace" with
    | some v => v
    | none => "default"
  let r := i.GetDestinationRules ns
  NewTextResult r.1 r.2

/-- getGateways handler. -/
def getGateways (i : Istio) (args : Args) : CallToolResult :=
  let ns := match args "namespace" with
    | some v => v
    | none => "default"
  let r := i.GetGateways ns
  NewTextResult r.1 r.2

/-- getServiceEntries handler. -/
def getServiceEntries (i : Istio) (args : Args) : CallToolResult :=
  let ns := match args "namespace" with
    | some v => v
    | none => "default"
  let r := i.GetServiceEntries ns
  NewTextResult r.1 r.2

/-- getAuthorizationPolicies handler. -/
def getAuthorizationPolicies (i : Istio) (args : Args) : CallToolResult :=
  let ns := match args "namespace" with
    | some v => v
    | none => "default"
  let r := i.GetAuthorizationPolicies ns
  NewTextResult r.1 r.2

/-- getPeerAuthentications handler. -/
def getPeerAuthentications (i : Istio) (args : Args) : CallToolResult :=
  let ns := match args "namespace" with
    | some v => v
    | none => "default"
  let r := i.GetPeerAuthentications ns
  NewTextResult r.1 r.2

/-- getEnvoyFilters handler. -/
def getEnvoyFilters (i : Istio) (args : Args) : CallToolResult :=
  let ns := match args "namespace" with
    | some v => v
    | none => "default"
  let r := i.GetEnvoyFilters ns
  NewTextResult r.1 r.2

/-- getTelemetries handler. -/
def getTelemetries (i : Istio) (args : Args) : CallToolResult :=
  let ns := match args "namespace" with
    | some v => v
    | none => "default"
  let r := i.GetTelemetries ns
  NewTextResult r.1 r.2

/-- getIstioConfigSummary handler. -/
def getIstioConfigSummary (i : Istio) (args : Args) : CallToolResult :=
  let ns := match args "namespace" with
    | some v => v
    | none => "default"
  let r := i.GetIstioConfigSummary ns
  NewTextResult r.1 r.2

/-- checkExternalDependencyAvailability handler: required `service-name` and
`external-host` are presence-and-nonempty checked before the backend is
touched. -/
def checkExternalDependencyAvailability (i : Istio) (args : Args) : CallToolResult :=
  let serviceName := match args "service-name" with
    | some v => v
    | none => ""
  if serviceName = "" then NewTextResult "" (some "service-name is required")
  else
    let externalHost := match args "external-host" with
      | some v => v
      | none => ""
    if externalHost = "" then NewTextResult "" (some "external-host is required")
    else
      let ns := match args "namespace" with
        | some v => v
        | none => "default"
      let r := i.CheckExternalDependencyAvailability serviceName externalHost ns
      NewTextResult r.1 r.2

/-- discoverIstioNamespaces handler (no parameters). -/
def discoverIstioNamespaces (i : Istio) (_args : Args) : CallToolResult :=
  let r := i.DiscoverNamespacesWithSidecars
  NewTextResult r.1 r.2

/-- getServices handler. -/
def getServices (i : Istio) (args : Args) : CallToolResult :=
  let ns := match args "namespace" with
    | some v => v
    | none => "default"
  let r := i.GetServices ns
  NewTextResult r.1 r.2

/-- getPodsByService handler: required `service` is presence-and-nonempty
checked before the backend is touched; its error message names a workflow
hint, not the bare parameter. -/
def getPodsByService (i : Istio) (args : Args) : CallToolResult :=
  let ns := match args "namespace" with
    | some v => v
    | none => "default"
  let serviceName := match args "service" with
    | some v => v
    | none => ""
  if serviceName = "" then
    NewTextResult "" (some "service name is required - use 'get-services' first to discover available services")
  else
    let r := i.GetPodsByService ns serviceName
    NewTextResult r.1 r.2

/-- getProxyClusters handler: required `pod` short-circuits with
"pod name is required". -/
def getProxyClusters (i : Istio) (args : Args) : CallToolResult :=
  let ns := match args "namespace" with
    | some v => v
    | none => "default"
  let podName := match args "pod" with
    | some v => v
    | none => ""
  if podName = "" then NewTextResult "" (some "pod name is required")
  else
    let r := i.ProxyConfig.GetClusters ns podName
    NewTextResult r.1 r.2

/-- getProxyListeners handler. -/
def getProxyListeners (i : Istio) (args : Args) : CallToolResult :=
  let ns := match args "namespace" with
    | some v => v
    | none => "default"
  let podName := match args "pod" with
    | some v => v
    | none => ""
  if podName = "" then NewTextResult "" (some "pod name is required")
  else
    let r := i.ProxyConfig.GetListeners ns podName
    NewTextResult r.1 r.2

/-- getProxyRoutes handler. -/
def getProxyRoutes (i : Istio) (args : Args) : CallToolResult :=
  let ns := match args "namespace" with
    | some v => v
    | none => "default"
  let podName := match args "pod" with
    | some v => v
    | none => ""
  if podName = "" then NewTextResult "" (some "pod name is required")
  else
    let r := i.ProxyConfig.GetRoutes ns podName
    NewTextResult r.1 r.2

/-- getProxyEndpoints handler. -/
def getProxyEndpoints (i : Istio) (args : Args) : CallToolResult :=
  let ns := match args "namespace" with
    | some v => v
    | none => "default"
  let podName := match args "pod" with
    | some v => v
    | none => ""
  if podName = "" then NewTextResult "" (some "pod name is required")
  else
    let r := i.ProxyConfig.GetEndpoints ns podName
    NewTextResult r.1 r.2

/-- getProxyBootstrap handler. -/
def getProxyBootstrap (i : Istio) (args : Args) : CallToolResult :=
  let ns := match args "namespace" with
    | some v => v
    | none => "default"
  let podName := match args "pod" with
    | some v => v
    | none => ""
  if podName = "" then NewTextResult "" (some "pod name is required")
  else
    let r := i.ProxyConfig.GetBootstrap ns podName
    NewTextResult r.1 r.2

/-- getProxyConfigDump handler. -/
def getProxyConfigDump (i : Istio) (args : Args) : CallToolResult :=
  let ns := match args "namespace" with
    | some v => v
    | none => "default"
  let podName := match args "pod" with
    | some v => v
    | none => ""
  if podName = "" then NewTextResult "" (some "pod name is required")
  else
    let r := i.ProxyConfig.GetConfigDump ns podName
    NewTextResult r.1 r.2

/-- getProxyStatus handler: here the namespace default is "" (not "default"),
and the per-pod CLI shape is used only when BOTH pod and namespace are
non-empty; otherwise the cluster-wide shape is used. -/
def getProxyStatus (i : Istio) (args : Args) : CallToolResult :=
  let ns := match args "namespace" with
    | some v => v
    | none => ""
  let podName := match args "pod" with
    | some v => v
    | none => ""
  let r :=
    if podName ≠ "" ∧ ns ≠ "" then i.ProxyConfig.GetProxyStatusForPod ns podName
    else i.ProxyConfig.GetProxyStatus
  NewTextResult r.1 r.2

/-- getIstioAnalyze handler: namespace defaults to "" (whole cluster). -/
def getIstioAnalyze (i : Istio) (args : Args) : CallToolResult :=
  let ns := match args "namespace" with
    | some v => v
    | none => ""
  let r := i.ProxyConfig.GetAnalyze ns
  NewTextResult r.1 r.2

/-! ## The tool catalog (pkg/mcp/profile.go)

Each `mcp.NewTool(...)` call is carried as a `Tool` record: the name, the
title annotation, the declared parameters with their required flags, and the
read-only / destructive hint annotations.  The long free-text descriptions
are documentation only and are not carried.  `ServerTool` pairs the tool
with its bound handler, as in `server.ServerTool`. -/

/-- One declared string parameter of a tool. -/
structure ParamSpec where
  name : String
  required : Bool
deriving Repr, DecidableEq

/-- The descriptor data of one tool. -/
structure Tool where
  name : String
  title : String
  params : List ParamSpec
  readOnlyHint : Option Bool
  destructiveHint : Option Bool
deriving Repr, DecidableEq

/-- A tool with its bound handler. -/
structure ServerTool where
  tool : Tool
  handler : Istio → Args → CallToolResult

/-- initNetworkingTools. -/
def initNetworkingTools : List ServerTool :=
  [ { tool := { name := "get-virtual-services", title := "Istio: Virtual Services",
                params := [{ name := "namespace", required := false }],
                readOnlyHint := some true, destructiveHint := some false },
      handler := getVirtualServices },
    { tool := { name := "get-destination-rules", title := "Istio: Destination Rules",
                params := [{ name := "namespace", required := false }],
                readOnlyHint := some true, destructiveHint := some false },
      handler := getDestinationRules },
    { tool := { name := "get-gateways", title := "Istio: Gateways",
                params := [{ name := "namespace", required := false }],
                readOnlyHint := some true, destructiveHint := some false },
      handler := getGateways },
    { tool := { name := "get-service-entries", title := "Istio: Service Entries",
                params := [{ name := "namespace", required := false }],
                readOnlyHint := some true, destructiveHint := some false },
      handler := getServiceEntries } ]

/-- initSecurityTools. -/
def initSecurityTools : List ServerTool :=
  [ { tool := { name := "get-authorization-policies", title := "Istio: Authorization Policies",
                params := [{ name := "namespace", required := false }],
                readOnlyHint := some true, destructiveHint := some false },
      handler := getAuthorizationPolicies },
    { tool := { name := "get-peer-authentications", title := "Istio: Peer Authentications",
                params := [{ name := "namespace", required := false }],
                readOnlyHint := some true, destructiveHint := some false },
      handler := getPeerAuthentications } ]

/-- initConfigurationTools. -/
def initConfigurationTools : List ServerTool :=
  [ { tool := { name := "discover-istio-namespaces", title := "Istio: Namespace Discovery",
                params := [],
                readOnlyHint := some true, destructiveHint := some false },
      handler := discoverIstioNamespaces },
    { tool := { name := "get-envoy-filters", title := "Istio: Envoy Filters",
                params := [{ name := "namespace", required := false }],
                readOnlyHint := some true, destructiveHint := some false },
      handler := getEnvoyFilters },
    { tool := { name := "get-telemetry", title := "Istio: Telemetry",
                params := [{ name := "namespace", required := false }],
                readOnlyHint := some true, destructiveHint := some false },
      handler := getTelemetries },
    { tool := { name := "get-istio-config", title := "Istio: Configuration Summary",
                params := [{ name := "namespace", required := false }],
                readOnlyHint := some true, destructiveHint := some false },
      handler := getIstioConfigSummary },
    { tool := { name := "check-external-dependency-availability",
                title := "Istio: External Dependency Check",
                params := [{ name := "service-name", required := true },
                           { name := "external-host", required := true },
                           { name := "namespace", required := false }],
                readOnlyHint := some true, destructiveHint := some false },
      handler := checkExternalDependencyAvailability },
    { tool := { name := "get-services", title := "Kubernetes: Service Discovery",
                params := [{ name := "namespace", required := false }],
                readOnlyHint := some true, destructiveHint := some false },
      handler := getServices },
    { tool := { name := "get-pods-by-service", title := "Kubernetes: Service Pod Discovery",
                params := [{ name := "namespace", required := false },
                           { name := "service", required := true }],
                readOnlyHint := some true, destructiveHint := some false },
      handler := getPodsByService } ]

/-- initProxyConfigTools. -/
def initProxyConfigTools : List ServerTool :=
  [ { tool := { name := "get-proxy-clusters", title := "Istio: Proxy Clusters",
                params := [{ name := "namespace", required := false },
                           { name := "pod", required := true }],
                readOnlyHint := some true, destructiveHint := some false },
      handler := getProxyClusters },
    { tool := { name := "get-proxy-listeners", title := "Istio: Proxy Listeners",
                params := [{ name := "namespace", required := false },
                           { name := "pod", required := true }],
                readOnlyHint := some true, destructiveHint := some false },
      handler := getProxyListeners },
    { tool := { name := "get-proxy-routes", title := "Istio: Proxy Routes",
                params := [{ name := "namespace", required := false },
                           { name := "pod", required := true }],
                readOnlyHint := some true, destructiveHint := some false },
      handler := getProxyRoutes },
    { tool := { name := "get-proxy-endpoints", title := "Istio: Proxy Endpoints",
                params := [{ name := "namespace", required := false },
                           { name := "pod", required := true }],
                readOnlyHint := some true, destructiveHint := some false },
      handler := getProxyEndpoints },
    { tool := { name := "get-proxy-bootstrap", title := "Istio: Proxy Bootstrap",
                params := [{ name := "namespace", required := false },
                           { name := "pod", required := true }],
                readOnlyHint := some true, destructiveHint := some false },
      handler := getProxyBootstrap },
    { tool := { name := "get-proxy-config-dump", title := "Istio: Proxy Config Dump",
                params := [{ name := "namespace", required := false },
                           { name := "pod", required := true }],
                readOnlyHint := some true, destructiveHint := some false },
      handler := getProxyConfigDump },
    { tool := { name := "get-proxy-status", title := "Istio: Proxy Status",
                params := [{ name := "namespace", required := false },
                           { name := "pod", required := false }],
                readOnlyHint := some true, destructiveHint := some false },
      handler := getProxyStatus },
    { tool := { name := "get-istio-analyze", title := "Istio: Configuration Analysis",
                params := [{ name := "namespace", required := false }],
                readOnlyHint := some true, destructiveHint := some false },
      handler := getIstioAnalyze } ]

namespace FullProfile

/-- FullProfile.GetTools: the fixed catalog, the concatenation of the four
category groups in source order (slices.Concat). -/
def GetTools : List ServerTool :=
  initNetworkingTools ++ initSecurityTools ++ initConfigurationTools ++ initProxyConfigTools

end FullProfile

/-! ## Server construction, reload and watch lifecycle (pkg/mcp/mcp.go and
pkg/istio/istio.go WatchKubeConfig)

The fsnotify side effects are tracked by an explicit `World`: watcher
identities created so far, the still-open (live) watchers, and the multiset
of close events (`closed.count id` = how many times watcher `id`'s cleanup
ran).  A `Handle` is the watch-relevant state of one `istio.Istio` value: its
`CloseWatchKubeConfig` field, carried as the identity of the watcher that the
stored close function would close (`none` = nil function).  Construction of
the kube/istio clients is out of scope and enters as the `Except` outcome of
the `NewIstio` call. -/

/-- The watch-relevant state of one istio.Istio value. -/
structure Handle where
  watchId : Option Nat
deriving Repr, DecidableEq

/-- The fsnotify bookkeeping world. -/
structure World where
  nextWatchId : Nat
  live : List Nat
  closed : List Nat
deriving Repr, DecidableEq

/-- WatchKubeConfig from pkg/istio/istio.go, watch bookkeeping only: when
there are kubeconfig files and the fsnotify watcher can be created, a new
watcher is created and starts watching, then the receiver's previous close
function (if non-nil) is invoked, and the new watcher's close function is
stored.  When there are no files or the watcher cannot be created, the
function logs and returns with no state change (degraded mode). -/
def WatchKubeConfig (h : Handle) (files : List String) (watcherOk : Bool) (w : World) :
    Handle × World :=
  if files.isEmpty then (h, w)
  else if !watcherOk then (h, w)
  else
    let id := w.nextWatchId
    let w1 : World := { nextWatchId := id + 1, live := id :: w.live, closed := w.closed }
    match h.watchId with
    | some old =>
      ({ watchId := some id },
       { w1 with live := w1.live.erase old, closed := old :: w1.closed })
    | none => ({ watchId := some id }, w1)

/-- Istio.Close: invokes the stored close function, if any. -/
def closeHandle (h : Handle) (w : World) : World :=
  match h.watchId with
  | some id => { w with live := w.live.erase id, closed := id :: w.closed }
  | none => w

/-- NewIstio from pkg/istio/istio.go, watch-relevant outcome: on success the
new Istio value's `CloseWatchKubeConfig` field is nil (no watch installed);
`buildResult` is the outcome of config resolution and client construction
(out of scope), already carrying NewIstio's wrapped error message. -/
def NewIstio (buildResult : Except String Unit) : Except String Handle :=
  match buildResult with
  | .error e => .error e
  | .ok _ => .ok { watchId := none }

/-- The mcp.Server state: the live backend handle `i` (none before the first
reload) and the tool catalog installed via SetTools. -/
structure MCPServer where
  i : Option Handle
  tools : List ServerTool

/-- reloadIstioClient from pkg/mcp/mcp.go: constructs a fresh Istio client;
on failure returns the error with no state change; on success replaces the
handle and swaps in the freshly built catalog.  It does not call
WatchKubeConfig and does not touch the previous handle's watch. -/
def reloadIstioClient (s : MCPServer) (buildResult : Except String Unit) :
    MCPServer × Option String :=
  match NewIstio buildResult with
  | .error e => (s, some e)
  | .ok h => ({ i := some h, tools := FullProfile.GetTools }, none)

/-- NewServer from pkg/mcp/mcp.go: first reload (fatal on failure), then
WatchKubeConfig on the freshly built handle with the reload callback. -/
def NewServer (buildResult : Except String Unit) (files : List String) (watcherOk : Bool)
    (w : World) : Except String (MCPServer × World) :=
  let s0 : MCPServer := { i := none, tools := [] }
  match reloadIstioClient s0 buildResult with
  | (_, some e) => .error e
  | (s1, none) =>
    match s1.i with
    | some h =>
      let hw := WatchKubeConfig h files watcherOk w
      .ok ({ s1 with i := some hw.1 }, hw.2)
    | none => .ok (s1, w)

/-- Server.Close from pkg/mcp/mcp.go: closes the current handle, if any. -/
def CloseServer (s : MCPServer) (w : World) : World :=
  match s.i with
  | some h => closeHandle h w
  | none => w

/-- A kubeconfig-change event observed by the watch goroutine: it invokes the
reload callback on the current server state; the watch world is untouched by
the callback. -/
def reloadEvent (s : MCPServer) (buildResult : Except String Unit) : MCPServer :=
  (reloadIstioClient s buildResult).1

/-! ## Properties of the argument map and of backend equivalence -/

/-- A declared-required parameter counts as missing when its key is absent or
its value is the empty string. -/
def missingOrEmpty (args : Args) (k : String) : Prop :=
  args k = none ∨ args k = some ""

/-- The number of labels in a service selector. -/
def selectorSize : Option (List (String × String)) → Nat
  | none => 0
  | some l => l.length

/-- Two observed selector values of the same Go map: both nil, or permutations
of one another (Go map iteration order is unspecified, so two reads of one
unchanged map may present its entries in different orders). -/
def SelectorPerm : Option (List (String × String)) → Option (List (String × String)) → Prop
  | none, none => True
  | some a, some b => List.Perm a b
  | _, _ => False

/-- Two observations of the same unchanged Kubernetes service: all fields
equal, the selector map up to iteration order. -/
def KubeServiceEquiv (a b : KubeService) : Prop :=
  a.name = b.name ∧ a.type = b.type ∧ a.clusterIP = b.clusterIP ∧
    a.lbIngress = b.lbIngress ∧ SelectorPerm a.selector b.selector

/-- Two outcomes of fetching the same unchanged service. -/
def GetServiceEquiv : Except String KubeService → Except String KubeService → Prop
  | .error e1, .error e2 => e1 = e2
  | .ok s1, .ok s2 => KubeServiceEquiv s1 s2
  | _, _ => False

/-! ## Concrete fixtures for witnesses and counterexamples -/

/-- A backend whose every listing returns an empty collection. -/
def emptyIstioClient : IstioClient where
  listVirtualServices := fun _ => .ok []
  listDestinationRules := fun _ => .ok []
  listGateways := fun _ => .ok []
  listServiceEntries := fun _ => .ok []
  listAuthorizationPolicies := fun _ => .ok []
  listPeerAuthentications := fun _ => .ok []
  listEnvoyFilters := fun _ => .ok []
  listTelemetries := fun _ => .ok []

/-- A Kubernetes client with no services and no pods. -/
def stubKubeClient : KubeClient where
  getService := fun _ _ => .error "not found"
  getEndpoints := fun _ _ => .error "not found"
  listPods := fun _ _ => .ok []
  listServices := fun _ => .ok []
  listAllRunningPods := .ok []

/-- An istioctl oracle that succeeds and echoes its argv, making the issued
CLI invocation shape observable in the output. -/
def echoProxy : ProxyConfigClient where
  kubeconfig := ""
  run := fun argv => (String.intercalate " " argv, none)

/-- The empty concrete backend. -/
def emptyIstio : Istio where
  istioClient := emptyIstioClient
  kubeClient := stubKubeClient
  ProxyConfig := echoProxy

/-- The empty argument map. -/
def noArgs : Args := fun _ => none

/-- Arguments with the namespace key present but empty. -/
def argsEmptyNamespace : Args := fun k => if k = "namespace" then some "" else none

/-- Arguments with only a pod. -/
def argsPodOnly : Args := fun k => if k = "pod" then some "app-1" else none

/-- Arguments with a pod and a namespace. -/
def argsPodAndNamespace : Args := fun k =>
  if k = "pod" then some "app-1" else if k = "namespace" then some "ns1" else none

/-- Arguments with only a service-name. -/
def argsServiceNameOnly : Args := fun k => if k = "service-name" then some "orders" else none

/-- A backend where only the supplementary istio-system service-entry listing
fails. -/
def sysFailClient : IstioClient :=
  { emptyIstioClient with
    listServiceEntries := fun ns => if ns = "istio-system" then .error "boom" else .ok [] }

/-- The backend around `sysFailClient`. -/
def sysFailIstio : Istio := { emptyIstio with istioClient := sysFailClient }

/-- A backend whose destination-rule listing fails. -/
def drFailClient : IstioClient :=
  { emptyIstioClient with listDestinationRules := fun _ => .error "down" }

/-- The backend around `drFailClient`. -/
def drFailIstio : Istio := { emptyIstio with istioClient := drFailClient }

/-- A service with a two-label selector, as one run of the Go process
observes its selector map. -/
def webService1 : KubeService where
  name := "web"
  type := "ClusterIP"
  clusterIP := "10.0.0.1"
  lbIngress := []
  selector := some [("app", "web"), ("tier", "frontend")]

/-- The same unchanged service as another run observes it: the same selector
map, iterated in the other order. -/
def webService2 : KubeService :=
  { webService1 with selector := some [("tier", "frontend"), ("app", "web")] }

/-- The backend as observed by the first invocation. -/
def istioRun1 : Istio :=
  { emptyIstio with kubeClient := { stubKubeClient with getService := fun _ _ => .ok webService1 } }

/-- The backend as observed by the second invocation. -/
def istioRun2 : Istio :=
  { emptyIstio with kubeClient := { stubKubeClient with getService := fun _ _ => .ok webService2 } }

/-- The initial fsnotify world: no watcher ever created. -/
def w0 : World := { nextWatchId := 0, live := [], closed := [] }

/-- The server and world after a successful `NewServer` on one kubeconfig
file with a working fsnotify. -/
def afterStart : MCPServer × World :=
  match NewServer (Except.ok ()) ["kubeconfig"] true w0 with
  | .ok sw => sw
  | .error _ => ({ i := none, tools := [] }, w0)

/-- The state after one kubeconfig modification event whose reload succeeds. -/
def afterReload : MCPServer × World :=
  (reloadEvent afterStart.1 (Except.ok ()), afterStart.2)

/-- The world after `Server.Close` following that reload. -/
def afterClose : World := CloseServer afterReload.1 afterReload.2

/-- The web service with a single-label selector. -/
def webServiceSingle : KubeService := { webService1 with selector := some [("app", "web")] }

/-- A backend serving the single-label-selector service. -/
def istioSingle : Istio :=
  { emptyIstio with
    kubeClient := { stubKubeClient with getService := fun _ _ => .ok webServiceSingle } }

/-! ## Helper lemmas -/

/-- Rendering of the literal zero. -/
theorem nat_repr_zero : Nat.repr 0 = "0" := rfl

/-- A permutation of a list with at most one element is an equality. -/
theorem perm_of_short {A : Type} {a b : List A} (h : List.Perm a b) (hlen : a.length ≤ 1) :
    a = b := by
  cases a with
  | nil => exact (List.Perm.eq_nil h.symm).symm
  | cons x xs =>
    cases xs with
    | nil => exact List.singleton_perm.mp h
    | cons y ys => simp at hlen

/-!
## C4 — result-envelope wrapping
-/

/-- C4: for every handler result `(content, err)`, a non-nil `err` yields an
error envelope whose sole content item is the error's message (the content
string is discarded); a nil `err` yields a success envelope whose sole content
item is the content string; every envelope carries exactly one content item. -/
theorem C4_envelope_wrapping (content e : String) :
    NewTextResult content (some e)
      = { isError := true, content := [{ type := "text", text := e }] } ∧
    NewTextResult content none
      = { isError := false, content := [{ type := "text", text := content }] } ∧
    ∀ err : GoError, (NewTextResult content err).content.length = 1 := by
  refine ⟨rfl, rfl, ?_⟩
  intro err
  cases err <;> rfl

/-!
## C3 — reload atomicity on failure
-/

/-- C3: when rebuilding the backend during a reload fails, `reloadIstioClient`
returns the error and the server state — the installed handle and the
installed tool catalog — is unchanged. -/
theorem C3_failed_reload_keeps_state (s : MCPServer) (e : String) :
    reloadIstioClient s (Except.error e) = (s, some e) := rfl

/-!
## C9 — catalog safety annotation invariant
-/

/-- C9: every descriptor of the built catalog carries the read-only hint
`true` and the destructive hint `false`. -/
theorem C9_catalog_readonly :
    (FullProfile.GetTools.all fun st =>
      st.tool.readOnlyHint == some true && st.tool.destructiveHint == some false) = true := by
  decide

/-!
## C1 — reload/watch lifecycle
-/

/-- C1 (code bug, evaluated at the failing input): start the server with a
watchable kubeconfig (watcher 0 is installed), let one kubeconfig change event
trigger a successful reload, then close the server.  The reload leaves the
old handle's watch running (watcher 0 stays live), installs no new watch
(`nextWatchId` still 1), and stores a handle whose cleanup is nil — so the
old watch's cleanup runs zero times, not exactly once, and even `Close`
never closes watcher 0. -/
theorem C1_watch_cleanup_bug :
    afterStart.1.i = some { watchId := some 0 } ∧
    afterStart.2.live = [0] ∧
    afterReload.1.i = some { watchId := none } ∧
    afterReload.2.live = [0] ∧
    afterReload.2.closed.count 0 = 0 ∧
    afterReload.2.nextWatchId = 1 ∧
    afterClose.live = [0] ∧
    afterClose.closed.count 0 = 0 := by
  decide

/-!
## C2 — required-parameter validation
-/

/-- C2 (counterexample): `get-proxy-clusters` declares the required parameter
`pod`, so the claim's message would be "pod is required"; invoked with no
arguments the handler instead returns the error "pod name is required". -/
theorem C2_counterexample :
    getProxyClusters emptyIstio noArgs
      = { isError := true, content := [{ type := "text", text := "pod name is required" }] } ∧
    "pod name is required" ≠ "pod is required" := by
  constructor
  · decide
  · decide

/-- C2 (amended): a missing or empty declared-required parameter
short-circuits to an error envelope without invoking the backend (the result
is the same for every backend `i`), but the message is per-operation:
"pod name is required" for the six proxy tools requiring `pod`,
"service name is required - use 'get-services' first to discover available
services" for `get-pods-by-service`, and exactly "<parameter> is required"
only for the dependency check's `service-name` and `external-host`. -/
theorem C2_required_params (i : Istio) (args : Args) :
    (missingOrEmpty args "pod" →
      getProxyClusters i args = NewTextResult "" (some "pod name is required") ∧
      getProxyListeners i args = NewTextResult "" (some "pod name is required") ∧
      getProxyRoutes i args = NewTextResult "" (some "pod name is required") ∧
      getProxyEndpoints i args = NewTextResult "" (some "pod name is required") ∧
      getProxyBootstrap i args = NewTextResult "" (some "pod name is required") ∧
      getProxyConfigDump i args = NewTextResult "" (some "pod name is required")) ∧
    (missingOrEmpty args "service" →
      getPodsByService i args = NewTextResult ""
        (some "service name is required - use 'get-services' first to discover available services")) ∧
    (missingOrEmpty args "service-name" →
      checkExternalDependencyAvailability i args
        = NewTextResult "" (some "service-name is required")) ∧
    (∀ sn, args "service-name" = some sn → sn ≠ "" → missingOrEmpty args "external-host" →
      checkExternalDependencyAvailability i args
        = NewTextResult "" (some "external-host is required")) := by
  refine ⟨?_, ?_, ?_, ?_⟩
  · rintro (h | h) <;>
      exact ⟨by simp [getProxyClusters, h], by simp [getProxyListeners, h],
             by simp [getProxyRoutes, h], by simp [getProxyEndpoints, h],
             by simp [getProxyBootstrap, h], by simp [getProxyConfigDump, h]⟩
  · rintro (h | h) <;> simp [getPodsByService, h]
  · rintro (h | h) <;> simp [checkExternalDependencyAvailability, h]
  · rintro sn hsn hne (h | h) <;> simp [checkExternalDependencyAvailability, hsn, hne, h]

/-- C2 (witness): the amended theorem at concrete inputs. -/
theorem C2_witness :
    getProxyClusters emptyIstio noArgs = NewTextResult "" (some "pod name is required") ∧
    getPodsByService emptyIstio noArgs = NewTextResult ""
      (some "service name is required - use 'get-services' first to discover available services") ∧
    checkExternalDependencyAvailability emptyIstio noArgs
      = NewTextResult "" (some "service-name is required") ∧
    checkExternalDependencyAvailability emptyIstio argsServiceNameOnly
      = NewTextResult "" (some "external-host is required") := by
  have h1 := C2_required_params emptyIstio noArgs
  have h2 := C2_required_params emptyIstio argsServiceNameOnly
  exact ⟨(h1.1 (Or.inl rfl)).1, h1.2.1 (Or.inl rfl), h1.2.2.1 (Or.inl rfl),
         h2.2.2.2 "orders" (by decide) (by decide) (Or.inl (by decide))⟩

/-!
## C5 — proxy-status branch condition
-/

/-- C5 (counterexample): with the pod argument present (`pod = "app-1"`) but
no namespace argument, `get-proxy-status` issues the cluster-wide invocation
`istioctl proxy-status` (the echoing oracle shows the argv), not the per-pod
shape `istioctl proxy-status app-1.<ns>` the claim requires whenever the pod
is present. -/
theorem C5_counterexample :
    getProxyStatus emptyIstio argsPodOnly
      = { isError := false, content := [{ type := "text", text := "proxy-status" }] } ∧
    emptyIstio.ProxyConfig.GetProxyStatusForPod "" "app-1" = ("proxy-status app-1.", none) ∧
    "proxy-status" ≠ "proxy-status app-1." := by
  refine ⟨by decide, by decide, by decide⟩

/-- C5 (amended): the per-pod CLI invocation shape is issued if and only if
BOTH the pod and the namespace arguments are present and non-empty; in every
other case (pod absent or empty, or namespace absent or empty) the
cluster-wide shape is issued. -/
theorem C5_proxy_status_branch (i : Istio) (args : Args) :
    (∀ p n, args "pod" = some p → p ≠ "" → args "namespace" = some n → n ≠ "" →
      getProxyStatus i args =
        NewTextResult (i.ProxyConfig.GetProxyStatusForPod n p).1
          (i.ProxyConfig.GetProxyStatusForPod n p).2) ∧
    ((args "pod" = none ∨ args "pod" = some "" ∨
      args "namespace" = none ∨ args "namespace" = some "") →
      getProxyStatus i args =
        NewTextResult i.ProxyConfig.GetProxyStatus.1 i.ProxyConfig.GetProxyStatus.2) := by
  constructor
  · intro p n hp hpne hn hnne
    simp [getProxyStatus, hp, hn, hpne, hnne]
  · rintro (h | h | h | h) <;> simp [getProxyStatus, h]

/-- C5 (witness): the amended branch condition at concrete inputs. -/
theorem C5_witness :
    getProxyStatus emptyIstio argsPodAndNamespace = NewTextResult "proxy-status app-1.ns1" none ∧
    getProxyStatus emptyIstio argsPodOnly = NewTextResult "proxy-status" none := by
  have h1 := (C5_proxy_status_branch emptyIstio argsPodAndNamespace).1 "app-1" "ns1"
    (by decide) (by decide) (by decide) (by decide)
  have h2 := (C5_proxy_status_branch emptyIstio argsPodOnly).2
    (Or.inr (Or.inr (Or.inl rfl)))
  constructor
  · rw [h1]; decide
  · rw [h2]; decide

/-!
## C6 — dependency-check listing failures
-/

/-- C6 (counterexample): the dependency check performs the supplementary
istio-system service-entry listing (the namespace scan found no match), that
listing fails, and yet the operation returns success — not every listing it
performs is mandatory. -/
theorem C6_counterexample :
    sysFailIstio.istioClient.listServiceEntries "istio-system" = .error "boom" ∧
    (sysFailIstio.CheckExternalDependencyAvailability "orders" "rds.amazonaws.com" "default").2
      = none := by
  refine ⟨rfl, rfl⟩

/-- C6 (amended): the four namespace-scoped listings — service entries,
virtual services, destination rules, authorization policies — are mandatory:
if any of them fails the whole operation aborts with an error and no partial
content.  (The supplementary istio-system service-entry listing is
best-effort: its failure is ignored.) -/
theorem C6_mandatory_listings (i : Istio) (sn eh ns : String) :
    ((∃ e, i.istioClient.listServiceEntries ns = .error e) ∨
     (∃ e, i.istioClient.listVirtualServices ns = .error e) ∨
     (∃ e, i.istioClient.listDestinationRules ns = .error e) ∨
     (∃ e, i.istioClient.listAuthorizationPolicies ns = .error e)) →
    ∃ msg, i.CheckExternalDependencyAvailability sn eh ns = ("", some msg) := by
  rintro (⟨e, he⟩ | ⟨e, he⟩ | ⟨e, he⟩ | ⟨e, he⟩)
  · exact ⟨"failed to list service entries: " ++ e,
      by simp [Istio.CheckExternalDependencyAvailability, he]⟩
  · cases h1 : i.istioClient.listServiceEntries ns with
    | error e1 => exact ⟨"failed to list service entries: " ++ e1,
        by simp [Istio.CheckExternalDependencyAvailability, h1]⟩
    | ok l1 => exact ⟨"failed to list virtual services: " ++ e,
        by simp [Istio.CheckExternalDependencyAvailability, h1, he]⟩
  · cases h1 : i.istioClient.listServiceEntries ns with
    | error e1 => exact ⟨"failed to list service entries: " ++ e1,
        by simp [Istio.CheckExternalDependencyAvailability, h1]⟩
    | ok l1 =>
      cases h2 : i.istioClient.listVirtualServices ns with
      | error e2 => exact ⟨"failed to list virtual services: " ++ e2,
          by simp [Istio.CheckExternalDependencyAvailability, h1, h2]⟩
      | ok l2 => exact ⟨"failed to list destination rules: " ++ e,
          by simp [Istio.CheckExternalDependencyAvailability, h1, h2, he]⟩
  · cases h1 : i.istioClient.listServiceEntries ns with
    | error e1 => exact ⟨"failed to list service entries: " ++ e1,
        by simp [Istio.CheckExternalDependencyAvailability, h1]⟩
    | ok l1 =>
      cases h2 : i.istioClient.listVirtualServices ns with
      | error e2 => exact ⟨"failed to list virtual services: " ++ e2,
          by simp [Istio.CheckExternalDependencyAvailability, h1, h2]⟩
      | ok l2 =>
        cases h3 : i.istioClient.listDestinationRules ns with
        | error e3 => exact ⟨"failed to list destination rules: " ++ e3,
            by simp [Istio.CheckExternalDependencyAvailability, h1, h2, h3]⟩
        | ok l3 => exact ⟨"failed to list authorization policies: " ++ e,
            by simp [Istio.CheckExternalDependencyAvailability, h1, h2, h3, he]⟩

/-- C6 (witness): the amended theorem at a backend whose destination-rule
listing fails. -/
theorem C6_witness :
    ∃ msg, drFailIstio.CheckExternalDependencyAvailability "orders" "rds.amazonaws.com" "default"
      = ("", some msg) :=
  C6_mandatory_listings drFailIstio "orders" "rds.amazonaws.com" "default"
    (Or.inr (Or.inr (Or.inl ⟨"down", rfl⟩)))

/-!
## C8 — empty listings
-/

/-- C8: for each resource-listing operation, when the backend returns zero
items for the requested namespace the operation succeeds and its content is
exactly the header `Found 0 <Kind> in namespace '<ns>':` followed by a
newline, with no item lines. -/
theorem C8_empty_listings (i : Istio) (ns : String) :
    (i.istioClient.listVirtualServices ns = .ok [] →
      i.GetVirtualServices ns = ("Found 0 Virtual Services in namespace '" ++ ns ++ "':\n", none)) ∧
    (i.istioClient.listDestinationRules ns = .ok [] →
      i.GetDestinationRules ns = ("Found 0 Destination Rules in namespace '" ++ ns ++ "':\n", none)) ∧
    (i.istioClient.listGateways ns = .ok [] →
      i.GetGateways ns = ("Found 0 Gateways in namespace '" ++ ns ++ "':\n", none)) ∧
    (i.istioClient.listServiceEntries ns = .ok [] →
      i.GetServiceEntries ns = ("Found 0 Service Entries in namespace '" ++ ns ++ "':\n", none)) ∧
    (i.istioClient.listAuthorizationPolicies ns = .ok [] →
      i.GetAuthorizationPolicies ns
        = ("Found 0 Authorization Policies in namespace '" ++ ns ++ "':\n", none)) ∧
    (i.istioClient.listPeerAuthentications ns = .ok [] →
      i.GetPeerAuthentications ns
        = ("Found 0 Peer Authentications in namespace '" ++ ns ++ "':\n", none)) ∧
    (i.istioClient.listEnvoyFilters ns = .ok [] →
      i.GetEnvoyFilters ns = ("Found 0 Envoy Filters in namespace '" ++ ns ++ "':\n", none)) ∧
    (i.istioClient.listTelemetries ns = .ok [] →
      i.GetTelemetries ns
        = ("Found 0 Telemetry configurations in namespace '" ++ ns ++ "':\n", none)) := by
  refine ⟨?_, ?_, ?_, ?_, ?_, ?_, ?_, ?_⟩ <;> intro h
  · simp only [Istio.GetVirtualServices, h, List.foldl_nil, List.length_nil, nat_repr_zero]
    simp [String.append_assoc]
  · simp only [Istio.GetDestinationRules, h, List.foldl_nil, List.length_nil, nat_repr_zero]
    simp [String.append_assoc]
  · simp only [Istio.GetGateways, h, List.foldl_nil, List.length_nil, nat_repr_zero]
    simp [String.append_assoc]
  · simp only [Istio.GetServiceEntries, h, List.foldl_nil, List.length_nil, nat_repr_zero]
    simp [String.append_assoc]
  · simp only [Istio.GetAuthorizationPolicies, h, List.foldl_nil, List.length_nil, nat_repr_zero]
    simp [String.append_assoc]
  · simp only [Istio.GetPeerAuthentications, h, List.foldl_nil, List.length_nil, nat_repr_zero]
    simp [String.append_assoc]
  · simp only [Istio.GetEnvoyFilters, h, List.foldl_nil, List.length_nil, nat_repr_zero]
    simp [String.append_assoc]
  · simp only [Istio.GetTelemetries, h, List.foldl_nil, List.length_nil, nat_repr_zero]
    simp [String.append_assoc]

/-- C8 (witness): against the all-empty backend in namespace "default". -/
theorem C8_witness :
    emptyIstio.GetVirtualServices "default"
      = ("Found 0 Virtual Services in namespace 'default':\n", none) ∧
    emptyIstio.GetDestinationRules "default"
      = ("Found 0 Destination Rules in namespace 'default':\n", none) ∧
    emptyIstio.GetGateways "default"
      = ("Found 0 Gateways in namespace 'default':\n", none) ∧
    emptyIstio.GetServiceEntries "default"
      = ("Found 0 Service Entries in namespace 'default':\n", none) ∧
    emptyIstio.GetAuthorizationPolicies "default"
      = ("Found 0 Authorization Policies in namespace 'default':\n", none) ∧
    emptyIstio.GetPeerAuthentications "default"
      = ("Found 0 Peer Authentications in namespace 'default':\n", none) ∧
    emptyIstio.GetEnvoyFilters "default"
      = ("Found 0 Envoy Filters in namespace 'default':\n", none) ∧
    emptyIstio.GetTelemetries "default"
      = ("Found 0 Telemetry configurations in namespace 'default':\n", none) := by
  have h := C8_empty_listings emptyIstio "default"
  exact ⟨h.1 rfl, h.2.1 rfl, h.2.2.1 rfl, h.2.2.2.1 rfl, h.2.2.2.2.1 rfl,
         h.2.2.2.2.2.1 rfl, h.2.2.2.2.2.2.1 rfl, h.2.2.2.2.2.2.2 rfl⟩

/-!
## C10 — optional-namespace defaulting
-/

/-- C10: for every handler whose namespace parameter defaults to "default",
the default is substituted only when the namespace key is absent; a namespace
explicitly supplied as the empty string is passed through unchanged to the
backend query (the final conjunct shows the resulting header reading
namespace '').  Handlers with a required parameter are covered conditional on
that parameter being supplied. -/
theorem C10_namespace_defaulting (i : Istio) (args : Args) :
    (args "namespace" = some "" →
      getVirtualServices i args
        = NewTextResult (i.GetVirtualServices "").1 (i.GetVirtualServices "").2 ∧
      getDestinationRules i args
        = NewTextResult (i.GetDestinationRules "").1 (i.GetDestinationRules "").2 ∧
      getGateways i args = NewTextResult (i.GetGateways "").1 (i.GetGateways "").2 ∧
      getServiceEntries i args
        = NewTextResult (i.GetServiceEntries "").1 (i.GetServiceEntries "").2 ∧
      getAuthorizationPolicies i args
        = NewTextResult (i.GetAuthorizationPolicies "").1 (i.GetAuthorizationPolicies "").2 ∧
      getPeerAuthentications i args
        = NewTextResult (i.GetPeerAuthentications "").1 (i.GetPeerAuthentications "").2 ∧
      getEnvoyFilters i args = NewTextResult (i.GetEnvoyFilters "").1 (i.GetEnvoyFilters "").2 ∧
      getTelemetries i args = NewTextResult (i.GetTelemetries "").1 (i.GetTelemetries "").2 ∧
      getIstioConfigSummary i args
        = NewTextResult (i.GetIstioConfigSummary "").1 (i.GetIstioConfigSummary "").2 ∧
      getServices i args = NewTextResult (i.GetServices "").1 (i.GetServices "").2 ∧
      (∀ svc, args "service" = some svc → svc ≠ "" →
        getPodsByService i args
          = NewTextResult (i.GetPodsByService "" svc).1 (i.GetPodsByService "" svc).2) ∧
      (∀ p, args "pod" = some p → p ≠ "" →
        getProxyClusters i args
          = NewTextResult (i.ProxyConfig.GetClusters "" p).1 (i.ProxyConfig.GetClusters "" p).2 ∧
        getProxyListeners i args
          = NewTextResult (i.ProxyConfig.GetListeners "" p).1 (i.ProxyConfig.GetListeners "" p).2 ∧
        getProxyRoutes i args
          = NewTextResult (i.ProxyConfig.GetRoutes "" p).1 (i.ProxyConfig.GetRoutes "" p).2 ∧
        getProxyEndpoints i args
          = NewTextResult (i.ProxyConfig.GetEndpoints "" p).1 (i.ProxyConfig.GetEndpoints "" p).2 ∧
        getProxyBootstrap i args
          = NewTextResult (i.ProxyConfig.GetBootstrap "" p).1 (i.ProxyConfig.GetBootstrap "" p).2 ∧
        getProxyConfigDump i args
          = NewTextResult (i.ProxyConfig.GetConfigDump "" p).1
              (i.ProxyConfig.GetConfigDump "" p).2)) ∧
    (args "namespace" = none →
      getVirtualServices i args
        = NewTextResult (i.GetVirtualServices "default").1 (i.GetVirtualServices "default").2 ∧
      getDestinationRules i args
        = NewTextResult (i.GetDestinationRules "default").1 (i.GetDestinationRules "default").2 ∧
      getGateways i args
        = NewTextResult (i.GetGateways "default").1 (i.GetGateways "default").2 ∧
      getServiceEntries i args
        = NewTextResult (i.GetServiceEntries "default").1 (i.GetServiceEntries "default").2 ∧
      getAuthorizationPolicies i args
        = NewTextResult (i.GetAuthorizationPolicies "default").1
            (i.GetAuthorizationPolicies "default").2 ∧
      getPeerAuthentications i args
        = NewTextResult (i.GetPeerAuthentications "default").1
            (i.GetPeerAuthentications "default").2 ∧
      getEnvoyFilters i args
        = NewTextResult (i.GetEnvoyFilters "default").1 (i.GetEnvoyFilters "default").2 ∧
      getTelemetries i args
        = NewTextResult (i.GetTelemetries "default").1 (i.GetTelemetries "default").2) ∧
    getVirtualServices emptyIstio argsEmptyNamespace
      = NewTextResult "Found 0 Virtual Services in namespace '':\n" none := by
  refine ⟨?_, ?_, by decide⟩
  · intro h
    refine ⟨by simp [getVirtualServices, h], by simp [getDestinationRules, h],
            by simp [getGateways, h], by simp [getServiceEntries, h],
            by simp [getAuthorizationPolicies, h], by simp [getPeerAuthentications, h],
            by simp [getEnvoyFilters, h], by simp [getTelemetries, h],
            by simp [getIstioConfigSummary, h], by simp [getServices, h], ?_, ?_⟩
    · intro svc hsvc hne
      simp [getPodsByService, h, hsvc, hne]
    · intro p hp hne
      exact ⟨by simp [getProxyClusters, h, hp, hne],
             by simp [getProxyListeners, h, hp, hne],
             by simp [getProxyRoutes, h, hp, hne],
             by simp [getProxyEndpoints, h, hp, hne],
             by simp [getProxyBootstrap, h, hp, hne],
             by simp [getProxyConfigDump, h, hp, hne]⟩
  · intro h
    exact ⟨by simp [getVirtualServices, h], by simp [getDestinationRules, h],
           by simp [getGateways, h], by simp [getServiceEntries, h],
           by simp [getAuthorizationPolicies, h], by simp [getPeerAuthentications, h],
           by simp [getEnvoyFilters, h], by simp [getTelemetries, h]⟩

/-- C10 (witness): namespace supplied as "" is passed through; absent
namespace defaults. -/
theorem C10_witness :
    getVirtualServices emptyIstio argsEmptyNamespace
      = NewTextResult (emptyIstio.GetVirtualServices "").1 (emptyIstio.GetVirtualServices "").2 ∧
    getVirtualServices emptyIstio noArgs
      = NewTextResult (emptyIstio.GetVirtualServices "default").1
          (emptyIstio.GetVirtualServices "default").2 := by
  have h1 := C10_namespace_defaulting emptyIstio argsEmptyNamespace
  have h2 := C10_namespace_defaulting emptyIstio noArgs
  exact ⟨(h1.1 (by decide)).1, (h2.2.1 rfl).1⟩

/-!
## C7 — idempotence / determinism
-/

/-- C7 (counterexample): two invocations of `get-pods-by-service` with the
same arguments against the same unchanged backend (the same service record —
`GetServiceEquiv` holds — and identical pod/endpoints oracles) produce
different content, because the output embeds the service's selector map in
the order the Go runtime's map iteration presents it, which is unspecified
and differs between the two runs. -/
theorem C7_counterexample :
    GetServiceEquiv (istioRun1.kubeClient.getService "default" "web")
      (istioRun2.kubeClient.getService "default" "web") ∧
    istioRun1.kubeClient.getEndpoints = istioRun2.kubeClient.getEndpoints ∧
    istioRun1.kubeClient.listPods = istioRun2.kubeClient.listPods ∧
    istioRun1.GetPodsByService "default" "web" ≠ istioRun2.GetPodsByService "default" "web" := by
  refine ⟨?_, rfl, rfl, by decide⟩
  exact show KubeServiceEquiv webService1 webService2 from
    ⟨rfl, rfl, rfl, rfl, List.Perm.swap ("tier", "frontend") ("app", "web") []⟩

/-- C7 (amended): every operation is a deterministic function of the
arguments and the backend responses, so repeated invocation against an
unchanged backend is byte-identical — except that `get-pods-by-service`
additionally depends on the Go map iteration order of the service's
selector; its output is guaranteed byte-identical whenever that selector has
at most one label (and in general only up to the selector ordering). -/
theorem C7_determinism (i1 i2 : Istio) (ns svc : String)
    (hsvc : GetServiceEquiv (i1.kubeClient.getService ns svc) (i2.kubeClient.getService ns svc))
    (hshort : ∀ s, i1.kubeClient.getService ns svc = .ok s → selectorSize s.selector ≤ 1)
    (heps : i1.kubeClient.getEndpoints = i2.kubeClient.getEndpoints)
    (hpods : i1.kubeClient.listPods = i2.kubeClient.listPods) :
    i1.GetPodsByService ns svc = i2.GetPodsByService ns svc := by
  cases h1 : i1.kubeClient.getService ns svc with
  | error e1 =>
    cases h2 : i2.kubeClient.getService ns svc with
    | error e2 =>
      rw [h1, h2] at hsvc
      have he : e1 = e2 := hsvc
      subst he
      simp [Istio.GetPodsByService, h1, h2]
    | ok s2 =>
      rw [h1, h2] at hsvc
      exact hsvc.elim
  | ok s1 =>
    cases h2 : i2.kubeClient.getService ns svc with
    | error e2 =>
      rw [h1, h2] at hsvc
      exact hsvc.elim
    | ok s2 =>
      rw [h1, h2] at hsvc
      have hK : KubeServiceEquiv s1 s2 := hsvc
      have hlen := hshort s1 h1
      obtain ⟨hn, ht, hc, hl, hsel⟩ := hK
      have hselEq : s1.selector = s2.selector := by
        cases hsel1 : s1.selector with
        | none =>
          cases hsel2 : s2.selector with
          | none => rfl
          | some b => rw [hsel1, hsel2] at hsel; exact hsel.elim
        | some a =>
          cases hsel2 : s2.selector with
          | none => rw [hsel1, hsel2] at hsel; exact hsel.elim
          | some b =>
            rw [hsel1, hsel2] at hsel
            rw [hsel1] at hlen
            have hab : a = b := perm_of_short hsel hlen
            rw [hab]
      have hs : s1 = s2 := by
        cases s1
        cases s2
        simp_all
      subst hs
      simp [Istio.GetPodsByService, h1, h2, heps, hpods]

/-- C7 (witness): the determinism theorem applied to a backend whose service
has a one-label selector. -/
theorem C7_witness :
    GetServiceEquiv (istioSingle.kubeClient.getService "default" "web")
      (istioSingle.kubeClient.getService "default" "web") ∧
    istioSingle.GetPodsByService "default" "web"
      = istioSingle.GetPodsByService "default" "web" := by
  have hequiv : GetServiceEquiv (istioSingle.kubeClient.getService "default" "web")
      (istioSingle.kubeClient.getService "default" "web") :=
    show KubeServiceEquiv webServiceSingle webServiceSingle from
      ⟨rfl, rfl, rfl, rfl, List.Perm.refl _⟩
  refine ⟨hequiv, C7_determinism istioSingle istioSingle "default" "web" hequiv ?_ rfl rfl⟩
  intro s hs
  have h' : Except.ok (ε := String) webServiceSingle = Except.ok s := hs
  rw [← Except.ok.inj h']
  decide

end IstioMCP
